import Mathlib

set_option maxHeartbeats 1000000

/-!
A verification development for the rdaemon library.

We give a shallow embedding of the library's core in Lean:
* `DaemonEvent` (rdaemon/daemons.py, class DaemonEvent): the termination-aware
  event primitive, modelled as a two-flag state with each method a pure
  state transformer.  The embedding is the sequential (interleaving-free)
  semantics: each method call is one atomic step, which matches the Python
  code since every method body runs under the single condition lock.
* `PeriodicDaemon.run` (rdaemon/daemons.py, class PeriodicDaemon): the
  periodic scheduler loop, with the caller-supplied task modelled as an
  oracle giving each callback's outcome (normal return or raised exception),
  and a fuel bound on the number of loop iterations.
* The file bookkeeping backend (rdaemon/file.py) and the cgroup bookkeeping
  backend (rdaemon/bookkeeping/cgroups.py), over an explicit world state
  (directories, pid files, an os.kill outcome oracle, cgroup membership).
Python exceptions are modelled with `Except`; a bare `except` corresponds to
a `match` on the `Except` value.
-/

/-- State of `DaemonEvent` (daemons.py lines 314-415): the signalled flag
(`self.__flag`) and the sticky termination flag (`self.__terminated`). -/
structure DaemonEvent where
  flag : Bool
  terminated : Bool
deriving DecidableEq, Repr

/-- `DaemonEvent.__init__`: both flags start false. -/
def DaemonEvent.init : DaemonEvent := { flag := false, terminated := false }

/-- `DaemonEvent.is_set` (line 333): read of the flag. -/
def DaemonEvent.is_set (s : DaemonEvent) : Bool := s.flag

/-- `DaemonEvent.set` (line 339): sets the flag, wakes all waiters. -/
def DaemonEvent.set (s : DaemonEvent) : DaemonEvent := { s with flag := true }

/-- `DaemonEvent.clear` (lines 351-363): returns the previous flag value and
clears the flag unless the event is terminated. -/
def DaemonEvent.clear (s : DaemonEvent) : Bool × DaemonEvent :=
  (s.flag, if s.terminated then s else { s with flag := false })

/-- `DaemonEvent.reset` (lines 365-375): clears both the flag and the
terminated flag. -/
def DaemonEvent.reset (_ : DaemonEvent) : DaemonEvent :=
  { flag := false, terminated := false }

/-- Result of one `wait_and_clear` call: the returned value, whether the call
actually blocked on the condition variable (`self.__cond.wait`), and the
event state after the call. -/
structure WaitOutcome where
  ret : Bool
  waited : Bool
  state : DaemonEvent
deriving DecidableEq, Repr

/-- `DaemonEvent.wait_and_clear` (lines 377-394), sequential semantics: if
terminated, return false at once without blocking and without touching the
flag; otherwise block only when the flag is unset (with no concurrent caller
the wait simply times out and the flag is still unset on wake), then return
the flag value and clear the flag.  The timeout argument bounds the blocking
duration only, so it does not influence the resulting value or state. -/
def DaemonEvent.wait_and_clear (s : DaemonEvent) (_timeout : Option Nat) : WaitOutcome :=
  if s.terminated then { ret := false, waited := false, state := s }
  else { ret := s.flag, waited := !s.flag, state := { s with flag := false } }

/-- `DaemonEvent.terminate` (lines 396-409): sets the terminated flag, forces
the flag to true, wakes all waiters, and returns the previous flag value. -/
def DaemonEvent.terminate (s : DaemonEvent) : Bool × DaemonEvent :=
  (s.flag, { flag := true, terminated := true })

/-- `DaemonEvent.is_terminated` (lines 411-415): read of the terminated flag. -/
def DaemonEvent.is_terminated (s : DaemonEvent) : Bool := s.terminated

/-- One call in a sequential history of `DaemonEvent` operations. -/
inductive EvOp where
  | set
  | clear
  | wait (timeout : Option Nat)
  | terminate
  | reset
deriving DecidableEq, Repr

/-- The state transformation of one `DaemonEvent` method call. -/
def evStep (op : EvOp) (s : DaemonEvent) : DaemonEvent :=
  match op with
  | EvOp.set => s.set
  | EvOp.clear => (s.clear).2
  | EvOp.wait t => (s.wait_and_clear t).state
  | EvOp.terminate => (s.terminate).2
  | EvOp.reset => s.reset

/-- The state after a sequence of `DaemonEvent` method calls. -/
def evRun (ops : List EvOp) (s : DaemonEvent) : DaemonEvent :=
  ops.foldl (fun s op => evStep op s) s

theorem evRun_nil (s : DaemonEvent) : evRun [] s = s := rfl

theorem evRun_cons (op : EvOp) (ops : List EvOp) (s : DaemonEvent) :
    evRun (op :: ops) s = evRun ops (evStep op s) := rfl

theorem evRun_append (a b : List EvOp) (s : DaemonEvent) :
    evRun (a ++ b) s = evRun b (evRun a s) := by
  simp [evRun, List.foldl_append]

/-- Every method call preserves the invariant that the terminated flag implies
the signalled flag. -/
theorem evStep_inv (op : EvOp) (s : DaemonEvent)
    (h : s.terminated = true → s.flag = true) :
    (evStep op s).terminated = true → (evStep op s).flag = true := by
  rcases s with ⟨f, t⟩
  cases op <;>
    simp [evStep, DaemonEvent.set, DaemonEvent.clear, DaemonEvent.reset,
      DaemonEvent.wait_and_clear, DaemonEvent.terminate] <;>
    cases t <;> simp_all

/-- The invariant is preserved along any call sequence. -/
theorem evRun_inv (ops : List EvOp) (s : DaemonEvent)
    (h : s.terminated = true → s.flag = true) :
    (evRun ops s).terminated = true → (evRun ops s).flag = true := by
  induction ops generalizing s with
  | nil => exact h
  | cons op ops ih =>
    rw [evRun_cons]
    exact ih _ (evStep_inv op s h)

/-- Any call other than `reset` leaves the fully-terminated state (both flags
true) unchanged. -/
theorem evStep_terminated_fixed (op : EvOp) (s : DaemonEvent)
    (ht : s.terminated = true) (hf : s.flag = true) (hop : op ≠ EvOp.reset) :
    evStep op s = s := by
  rcases s with ⟨f, t⟩
  cases op <;>
    simp_all [evStep, DaemonEvent.set, DaemonEvent.clear,
      DaemonEvent.wait_and_clear, DaemonEvent.terminate]

/-- A reset-free call sequence leaves the fully-terminated state unchanged. -/
theorem evRun_terminated_fixed (ops : List EvOp) (s : DaemonEvent)
    (ht : s.terminated = true) (hf : s.flag = true) (hops : EvOp.reset ∉ ops) :
    evRun ops s = s := by
  induction ops with
  | nil => rfl
  | cons op ops ih =>
    rw [evRun_cons, evStep_terminated_fixed op s ht hf (fun h => hops (h ▸ List.mem_cons_self op ops))]
    exact ih (fun h => hops (List.mem_cons_of_mem op h))

/-- `terminate` forces both flags to true from any state. -/
theorem evStep_terminate (s : DaemonEvent) :
    evStep EvOp.terminate s = { flag := true, terminated := true } := rfl

/-- Claim C4: for every sequence of `DaemonEvent` operations in which no
`reset` follows the `terminate`, the state reached after the `terminate`
reports `is_terminated = true`, and a `wait_and_clear` call on it returns
false immediately, without blocking, for any timeout. -/
theorem daemonEvent_terminate_wins (ops₁ ops₂ : List EvOp) (timeout : Option Nat)
    (h₂ : EvOp.reset ∉ ops₂) :
    (evRun (ops₁ ++ EvOp.terminate :: ops₂) DaemonEvent.init).is_terminated = true
    ∧ ((evRun (ops₁ ++ EvOp.terminate :: ops₂) DaemonEvent.init).wait_and_clear timeout).ret = false
    ∧ ((evRun (ops₁ ++ EvOp.terminate :: ops₂) DaemonEvent.init).wait_and_clear timeout).waited = false := by
  have hrun : evRun (ops₁ ++ EvOp.terminate :: ops₂) DaemonEvent.init
      = { flag := true, terminated := true } := by
    rw [evRun_append, evRun_cons, evStep_terminate]
    exact evRun_terminated_fixed ops₂ _ rfl rfl h₂
  rw [hrun]
  simp [DaemonEvent.is_terminated, DaemonEvent.wait_and_clear]

/-- Witness for C4 at a concrete call sequence. -/
theorem daemonEvent_terminate_wins_witness :
    (EvOp.reset ∉ [EvOp.set, EvOp.clear]
    ∧ (evRun ([EvOp.wait none] ++ EvOp.terminate :: [EvOp.set, EvOp.clear]) DaemonEvent.init).is_terminated = true
    ∧ ((evRun ([EvOp.wait none] ++ EvOp.terminate :: [EvOp.set, EvOp.clear]) DaemonEvent.init).wait_and_clear (some 5)).ret = false
    ∧ ((evRun ([EvOp.wait none] ++ EvOp.terminate :: [EvOp.set, EvOp.clear]) DaemonEvent.init).wait_and_clear (some 5)).waited = false) := by
  refine ⟨by decide, ?_⟩
  exact daemonEvent_terminate_wins [EvOp.wait none] [EvOp.set, EvOp.clear] (some 5) (by decide)

/-- Claim C5: `clear` returns the pre-call value of the signalled flag; when
the event is not terminated it clears the flag, and when it is terminated it
leaves the state unchanged — so on any reachable terminated state the flag
stays true. -/
theorem daemonEvent_clear_spec (s : DaemonEvent) (ops : List EvOp) :
    (s.clear).1 = s.flag
    ∧ (s.terminated = false → ((s.clear).2).flag = false)
    ∧ (s.terminated = true → (s.clear).2 = s)
    ∧ ((evRun ops DaemonEvent.init).terminated = true →
        (((evRun ops DaemonEvent.init).clear).2).flag = true) := by
  refine ⟨rfl, ?_, ?_, ?_⟩
  · intro h
    simp [DaemonEvent.clear, h]
  · intro h
    simp [DaemonEvent.clear, h]
  · intro h
    have hf : (evRun ops DaemonEvent.init).flag = true :=
      evRun_inv ops DaemonEvent.init (by intro h; cases h) h
    simp [DaemonEvent.clear, h, hf]

/-- Witness for C5 at a concrete state and call sequence. -/
theorem daemonEvent_clear_spec_witness :
    ((({ flag := true, terminated := false } : DaemonEvent).clear).1 = true
    ∧ ((({ flag := true, terminated := false } : DaemonEvent).clear).2).flag = false
    ∧ (evRun [EvOp.terminate] DaemonEvent.init).terminated = true
    ∧ (((evRun [EvOp.terminate] DaemonEvent.init).clear).2).flag = true) := by
  have h := daemonEvent_clear_spec { flag := true, terminated := false } [EvOp.terminate]
  exact ⟨h.1, h.2.1 rfl, by decide, h.2.2.2 (by decide)⟩

/-- Claim C9: in every state reachable by a sequence of `DaemonEvent` calls
from the initial state, the terminated flag implies the signalled flag; after
a `terminate` with no later `reset` the flag reads true and stays true, and no
single call other than `reset` can make the flag false on such a state. -/
theorem daemonEvent_invariant :
    (∀ ops : List EvOp,
      (evRun ops DaemonEvent.init).terminated = true → (evRun ops DaemonEvent.init).flag = true)
    ∧ (∀ ops₁ ops₂ : List EvOp, EvOp.reset ∉ ops₂ →
        (evRun (ops₁ ++ EvOp.terminate :: ops₂) DaemonEvent.init).is_set = true
        ∧ (evRun (ops₁ ++ EvOp.terminate :: ops₂) DaemonEvent.init).terminated = true)
    ∧ (∀ (op : EvOp) (s : DaemonEvent), s.terminated = true → s.flag = true →
        op ≠ EvOp.reset → (evStep op s).flag = true) := by
  refine ⟨?_, ?_, ?_⟩
  · intro ops
    exact evRun_inv ops DaemonEvent.init (by intro h; cases h)
  · intro ops₁ ops₂ h₂
    have hrun : evRun (ops₁ ++ EvOp.terminate :: ops₂) DaemonEvent.init
        = { flag := true, terminated := true } := by
      rw [evRun_append, evRun_cons, evStep_terminate]
      exact evRun_terminated_fixed ops₂ _ rfl rfl h₂
    rw [hrun]
    exact ⟨rfl, rfl⟩
  · intro op s ht hf hop
    rw [evStep_terminated_fixed op s ht hf hop]
    exact hf

/-- Witness for C9 at concrete sequences, states and calls. -/
theorem daemonEvent_invariant_witness :
    (((evRun [EvOp.set, EvOp.terminate] DaemonEvent.init).terminated = true →
        (evRun [EvOp.set, EvOp.terminate] DaemonEvent.init).flag = true)
    ∧ (EvOp.reset ∉ [EvOp.clear]
        ∧ (evRun ([] ++ EvOp.terminate :: [EvOp.clear]) DaemonEvent.init).is_set = true)
    ∧ (({ flag := true, terminated := true } : DaemonEvent).terminated = true
        ∧ (evStep EvOp.clear { flag := true, terminated := true }).flag = true)) := by
  refine ⟨daemonEvent_invariant.1 [EvOp.set, EvOp.terminate], ⟨by decide, ?_⟩, by decide, ?_⟩
  · exact (daemonEvent_invariant.2.1 [] [EvOp.clear] (by decide)).1
  · exact daemonEvent_invariant.2.2 EvOp.clear { flag := true, terminated := true } rfl rfl (by decide)

/-- `BaseDaemon.notify` (daemons.py line 97): delegates to `event.set()`. -/
def BaseDaemon.notify (s : DaemonEvent) : DaemonEvent := s.set

/-- `BaseDaemon.terminate` (daemons.py line 104): delegates to
`event.terminate()` (return value dropped). -/
def BaseDaemon.terminate (s : DaemonEvent) : DaemonEvent := (s.terminate).2

/-- `BaseDaemon.is_terminated` (daemons.py line 112). -/
def BaseDaemon.is_terminated (s : DaemonEvent) : Bool := s.is_terminated

/-- Outcome of one Python callback invocation: a normal return carrying a
value, or a raised exception. -/
inductive CallRes (α : Type) where
  | ok (val : α)
  | exn
deriving DecidableEq, Repr

/-- Oracle for a caller-supplied `IPeriodicTask` object: the outcome of the
single `setup()` and `teardown()` calls, and of the n-th `is_finished()` and
`periodic_task(...)` calls of a run. -/
structure PTask where
  setup : CallRes Unit
  is_finished : Nat → CallRes Bool
  periodic_task : Nat → CallRes Unit
  teardown : CallRes Unit

/-- `PeriodicDaemon.__setup` (daemons.py lines 212-219): calls `task.setup()`;
returns true on normal return, and catches any exception (logging it) and
returns false. -/
def PeriodicDaemon.setupCall (t : PTask) : Bool :=
  match t.setup with
  | CallRes.ok _ => true
  | CallRes.exn => false

/-- `PeriodicDaemon.__is_finished` (daemons.py lines 235-240): calls
`task.is_finished()` and returns its result; any exception is caught and
logged, and the wrapper then falls through, returning Python `None`
(modelled as `none`). -/
def PeriodicDaemon.isFinishedCall (t : PTask) (i : Nat) : Option Bool :=
  match t.is_finished i with
  | CallRes.ok b => some b
  | CallRes.exn => none

/-- Observable outcome of one `PeriodicDaemon.run()` invocation:
whether `__setup` reported success, the `is_scheduled_wakeup` argument of
each `__periodic_task` invocation in order, whether `__teardown` was
invoked, and the final event state.  `run` always returns normally — each
task callback is individually guarded — so the embedding is a total
function into this record. -/
structure RunResult where
  setup_ok : Bool
  periodic_calls : List Bool
  teardown_called : Bool
  ev : DaemonEvent

/-- The `while` loop of `PeriodicDaemon.run` (daemons.py lines 175-178),
sequential semantics with a fuel bound on the number of iterations.
Each iteration: check `is_terminated`, then `__is_finished() is False`
(so a `None` from a swallowed exception, or a `True`, exits the loop);
then `wait_for_next_period` (lines 198-206), whose result is negated to
give `is_scheduled_wakeup`; then `__periodic_task(is_scheduled_wakeup)`,
whose outcome is swallowed (lines 228-233), recorded here only as the
argument appended to the accumulator.  The wait timeout computed by
`calc_next_wait_time` bounds wall-clock blocking only and does not affect
the sequential outcome, so `none` is passed. -/
def PeriodicDaemon.runLoop (t : PTask) (fuel : Nat) (i : Nat) (ev : DaemonEvent)
    (acc : List Bool) : List Bool × DaemonEvent :=
  match fuel with
  | 0 => (acc, ev)
  | Nat.succ fuel =>
    if ev.is_terminated = true then (acc, ev)
    else
      match PeriodicDaemon.isFinishedCall t i with
      | some false =>
        PeriodicDaemon.runLoop t fuel (i + 1) ((ev.wait_and_clear none).state)
          (acc ++ [!(ev.wait_and_clear none).ret])
      | _ => (acc, ev)

/-- `PeriodicDaemon.run` (daemons.py lines 162-185): call `__setup`; on
failure log and return at once (before the `try`/`finally`, so without
teardown).  Otherwise reset the event, run the loop, and in the `finally`
block invoke `__teardown` (lines 221-226, which swallows any exception). -/
def PeriodicDaemon.run (t : PTask) (fuel : Nat) (ev0 : DaemonEvent) : RunResult :=
  if PeriodicDaemon.setupCall t = false then
    { setup_ok := false, periodic_calls := [], teardown_called := false, ev := ev0 }
  else
    let r := PeriodicDaemon.runLoop t fuel 0 (ev0.reset) []
    { setup_ok := true, periodic_calls := r.1, teardown_called := true, ev := r.2 }

/-- Unfolding one loop iteration when the event is live and the task answers
a normal `False` to `is_finished`. -/
theorem PeriodicDaemon.runLoop_step (t : PTask) (fuel i : Nat) (ev : DaemonEvent)
    (acc : List Bool) (hterm : ev.is_terminated = false)
    (hfin : PeriodicDaemon.isFinishedCall t i = some false) :
    PeriodicDaemon.runLoop t (fuel + 1) i ev acc
      = PeriodicDaemon.runLoop t fuel (i + 1) ((ev.wait_and_clear none).state)
          (acc ++ [!(ev.wait_and_clear none).ret]) := by
  simp [PeriodicDaemon.runLoop, hterm, hfin]

/-- The loop only ever appends to its accumulator. -/
theorem PeriodicDaemon.runLoop_acc_extends (t : PTask) (fuel i : Nat) (ev : DaemonEvent)
    (acc : List Bool) :
    ∃ l, (PeriodicDaemon.runLoop t fuel i ev acc).1 = acc ++ l := by
  induction fuel generalizing i ev acc with
  | zero => exact ⟨[], by simp [PeriodicDaemon.runLoop]⟩
  | succ fuel ih =>
    by_cases hterm : ev.is_terminated = true
    · exact ⟨[], by simp [PeriodicDaemon.runLoop, hterm]⟩
    · rcases hfin : PeriodicDaemon.isFinishedCall t i with _ | b
      · exact ⟨[], by simp [PeriodicDaemon.runLoop, hterm, hfin]⟩
      · cases b
        · rcases ih (i + 1) (ev.wait_and_clear none).state (acc ++ [!(ev.wait_and_clear none).ret])
            with ⟨l, hl⟩
          refine ⟨(!(ev.wait_and_clear none).ret) :: l, ?_⟩
          rw [PeriodicDaemon.runLoop_step t fuel i ev acc (by simp_all) hfin, hl]
          simp
        · exact ⟨[], by simp [PeriodicDaemon.runLoop, hterm, hfin]⟩

/-- When setup succeeds and the task's first `is_finished` answer is a normal
`False`, the run with at least one unit of fuel performs a first
`periodic_task` invocation classified as a scheduled wakeup — for every
starting event state, since the event is reset before the loop. -/
theorem PeriodicDaemon.run_first_call_scheduled (t : PTask) (fuel : Nat) (ev0 : DaemonEvent)
    (hs : t.setup = CallRes.ok ()) (hf : t.is_finished 0 = CallRes.ok false)
    (hfuel : 0 < fuel) :
    (PeriodicDaemon.run t fuel ev0).periodic_calls.head? = some true
    ∧ (PeriodicDaemon.run t fuel ev0).setup_ok = true := by
  rcases fuel with _ | fuel
  · exact absurd hfuel (lt_irrefl 0)
  have hsc : PeriodicDaemon.setupCall t = true := by
    simp [PeriodicDaemon.setupCall, hs]
  have hfc : PeriodicDaemon.isFinishedCall t 0 = some false := by
    simp [PeriodicDaemon.isFinishedCall, hf]
  have hstep : PeriodicDaemon.runLoop t (fuel + 1) 0
        ({ flag := false, terminated := false } : DaemonEvent) []
      = PeriodicDaemon.runLoop t fuel 1 { flag := false, terminated := false } [true] := by
    rw [PeriodicDaemon.runLoop_step t fuel 0
      ({ flag := false, terminated := false } : DaemonEvent) [] rfl hfc]
    simp [DaemonEvent.wait_and_clear]
  have hcalls : (PeriodicDaemon.run t (fuel + 1) ev0).periodic_calls
      = (PeriodicDaemon.runLoop t fuel 1 { flag := false, terminated := false } [true]).1 := by
    simp [PeriodicDaemon.run, hsc, DaemonEvent.reset, hstep]
  rcases PeriodicDaemon.runLoop_acc_extends t fuel 1
      ({ flag := false, terminated := false } : DaemonEvent) [true] with ⟨l, hl⟩
  constructor
  · rw [hcalls, hl]
    rfl
  · simp [PeriodicDaemon.run, hsc]

/-- Claim C1 counterexample: a `terminate()` issued before `run()` starts is
not observed by the loop.  Here the event has been terminated before the run,
the task's setup succeeds and it never reports finished, yet the run invokes
`periodic_task` (once per unit of fuel); the claim's promise of "no
periodic_task invocation" fails. -/
theorem periodicDaemon_pre_terminate_not_observed :
    (PeriodicDaemon.run
      { setup := CallRes.ok (), is_finished := fun _ => CallRes.ok false,
        periodic_task := fun _ => CallRes.ok (), teardown := CallRes.ok () }
      3 (BaseDaemon.terminate DaemonEvent.init)).periodic_calls = [true, true, true]
    ∧ (PeriodicDaemon.run
      { setup := CallRes.ok (), is_finished := fun _ => CallRes.ok false,
        periodic_task := fun _ => CallRes.ok (), teardown := CallRes.ok () }
      3 (BaseDaemon.terminate DaemonEvent.init)).periodic_calls ≠ [] := by
  exact ⟨by decide, by decide⟩

/-- Claim C1 (amended): calling `terminate()` before `run()` starts does NOT
make the loop observe termination: `run` invokes `setup`, then
`self._event.reset()` clears the terminated flag, and the loop proceeds to
invoke `periodic_task` (whenever setup succeeds and the task is not
finished).  Only the teardown-on-exit part of the original claim survives;
the pre-run termination request is discarded by the reset. -/
theorem periodicDaemon_pre_terminate_erased (t : PTask) (fuel : Nat) (ev0 : DaemonEvent)
    (hs : t.setup = CallRes.ok ()) (hf : t.is_finished 0 = CallRes.ok false)
    (hfuel : 0 < fuel) :
    (PeriodicDaemon.run t fuel (BaseDaemon.terminate ev0)).periodic_calls ≠ []
    ∧ (PeriodicDaemon.run t fuel (BaseDaemon.terminate ev0)).setup_ok = true
    ∧ (PeriodicDaemon.run t fuel (BaseDaemon.terminate ev0)).teardown_called = true := by
  have h := PeriodicDaemon.run_first_call_scheduled t fuel (BaseDaemon.terminate ev0) hs hf hfuel
  refine ⟨?_, h.2, ?_⟩
  · intro hnil
    rw [hnil] at h
    simp at h
  · have hsc : PeriodicDaemon.setupCall t = true := by
      simp [PeriodicDaemon.setupCall, hs]
    simp [PeriodicDaemon.run, hsc]

/-- Witness for the amended C1 at a concrete task, fuel and event state. -/
theorem periodicDaemon_pre_terminate_erased_witness :
    (({ setup := CallRes.ok (), is_finished := fun _ => CallRes.ok false,
        periodic_task := fun _ => CallRes.ok (), teardown := CallRes.ok () } : PTask).setup
          = CallRes.ok ()
    ∧ (PeriodicDaemon.run
        { setup := CallRes.ok (), is_finished := fun _ => CallRes.ok false,
          periodic_task := fun _ => CallRes.ok (), teardown := CallRes.ok () }
        2 (BaseDaemon.terminate DaemonEvent.init)).periodic_calls ≠ []) := by
  refine ⟨rfl, ?_⟩
  exact (periodicDaemon_pre_terminate_erased
    { setup := CallRes.ok (), is_finished := fun _ => CallRes.ok false,
      periodic_task := fun _ => CallRes.ok (), teardown := CallRes.ok () }
    2 DaemonEvent.init rfl rfl (by decide)).1

/-- Claim C2 counterexample: with a task whose `setup()` raises, `run()`
returns at daemons.py line 167, before the `try`/`finally` that guards the
loop — so `teardown()` is never attempted, contradicting the claim. -/
theorem periodicDaemon_setup_fail_no_teardown :
    (PeriodicDaemon.run
      { setup := CallRes.exn, is_finished := fun _ => CallRes.ok false,
        periodic_task := fun _ => CallRes.ok (), teardown := CallRes.ok () }
      5 DaemonEvent.init).teardown_called = false
    ∧ (PeriodicDaemon.run
      { setup := CallRes.exn, is_finished := fun _ => CallRes.ok false,
        periodic_task := fun _ => CallRes.ok (), teardown := CallRes.ok () }
      5 DaemonEvent.init).periodic_calls = [] := by
  exact ⟨rfl, rfl⟩

/-- Claim C2 (amended): for every task whose `setup()` raises, `run()` aborts
without entering the periodic loop — `periodic_task` is never invoked — and
the exception does not propagate out of `run()` (the wrapper `__setup`
absorbs it and `run` returns normally); but `teardown()` is NOT attempted:
the early `return` precedes the `try`/`finally` block. -/
theorem periodicDaemon_setup_fail_aborts (t : PTask) (fuel : Nat) (ev0 : DaemonEvent)
    (hs : t.setup = CallRes.exn) :
    (PeriodicDaemon.run t fuel ev0).periodic_calls = []
    ∧ (PeriodicDaemon.run t fuel ev0).teardown_called = false
    ∧ (PeriodicDaemon.run t fuel ev0).setup_ok = false := by
  have hsc : PeriodicDaemon.setupCall t = false := by
    simp [PeriodicDaemon.setupCall, hs]
  simp [PeriodicDaemon.run, hsc]

/-- Witness for the amended C2 at a concrete task. -/
theorem periodicDaemon_setup_fail_aborts_witness :
    (({ setup := CallRes.exn, is_finished := fun _ => CallRes.ok false,
        periodic_task := fun _ => CallRes.ok (), teardown := CallRes.ok () } : PTask).setup
          = CallRes.exn
    ∧ (PeriodicDaemon.run
        { setup := CallRes.exn, is_finished := fun _ => CallRes.ok false,
          periodic_task := fun _ => CallRes.ok (), teardown := CallRes.ok () }
        7 DaemonEvent.init).teardown_called = false) := by
  refine ⟨rfl, ?_⟩
  exact (periodicDaemon_setup_fail_aborts
    { setup := CallRes.exn, is_finished := fun _ => CallRes.ok false,
      periodic_task := fun _ => CallRes.ok (), teardown := CallRes.ok () }
    7 DaemonEvent.init rfl).2.1

/-- Claim C3 counterexample: with a task whose `is_finished()` always raises,
the loop exits at once — zero `periodic_task` invocations even with fuel for
five iterations — while the same task with `is_finished()` returning `False`
iterates five times.  The swallowed exception is treated as loop exit, not as
an `is_finished() == False` continuation. -/
theorem periodicDaemon_is_finished_exn_stops_loop :
    (PeriodicDaemon.run
      { setup := CallRes.ok (), is_finished := fun _ => CallRes.exn,
        periodic_task := fun _ => CallRes.ok (), teardown := CallRes.ok () }
      5 DaemonEvent.init).periodic_calls = []
    ∧ (PeriodicDaemon.run
      { setup := CallRes.ok (), is_finished := fun _ => CallRes.ok false,
        periodic_task := fun _ => CallRes.ok (), teardown := CallRes.ok () }
      5 DaemonEvent.init).periodic_calls.length = 5 := by
  exact ⟨rfl, rfl⟩

/-- Claim C3 (amended): when a task's `is_finished()` raises, the exception is
absorbed — `__is_finished` catches it, `run()` returns normally — but the
loop does not continue: `__is_finished` yields Python `None`, the condition
`None is False` is false, the loop exits as if the task were finished, no
(further) `periodic_task` invocation happens, and `teardown()` still runs. -/
theorem periodicDaemon_is_finished_exn_absorbed (t : PTask) (fuel : Nat) (ev0 : DaemonEvent)
    (hs : t.setup = CallRes.ok ()) (hf : t.is_finished 0 = CallRes.exn) :
    (PeriodicDaemon.run t fuel ev0).periodic_calls = []
    ∧ (PeriodicDaemon.run t fuel ev0).teardown_called = true := by
  have hsc : PeriodicDaemon.setupCall t = true := by
    simp [PeriodicDaemon.setupCall, hs]
  have hfc : PeriodicDaemon.isFinishedCall t 0 = none := by
    simp [PeriodicDaemon.isFinishedCall, hf]
  rcases fuel with _ | fuel
  · simp [PeriodicDaemon.run, hsc, PeriodicDaemon.runLoop]
  · simp [PeriodicDaemon.run, hsc, PeriodicDaemon.runLoop, hfc,
      DaemonEvent.reset, DaemonEvent.is_terminated]

/-- Witness for the amended C3 at a concrete task. -/
theorem periodicDaemon_is_finished_exn_absorbed_witness :
    (({ setup := CallRes.ok (), is_finished := fun _ => CallRes.exn,
        periodic_task := fun _ => CallRes.ok (), teardown := CallRes.ok () } : PTask).is_finished 0
          = CallRes.exn
    ∧ (PeriodicDaemon.run
        { setup := CallRes.ok (), is_finished := fun _ => CallRes.exn,
          periodic_task := fun _ => CallRes.ok (), teardown := CallRes.ok () }
        4 DaemonEvent.init).teardown_called = true) := by
  refine ⟨rfl, ?_⟩
  exact (periodicDaemon_is_finished_exn_absorbed
    { setup := CallRes.ok (), is_finished := fun _ => CallRes.exn,
      periodic_task := fun _ => CallRes.ok (), teardown := CallRes.ok () }
    4 DaemonEvent.init rfl rfl).2

/-- Claim C10: `run()` resets the event after setup and before the loop, so a
`notify()` issued before `run()` starts is discarded: the reset state has the
signalled flag cleared, and the first loop wakeup is classified as scheduled
(`is_scheduled_wakeup = true`), not forced to interrupt-driven by the pre-run
notify. -/
theorem periodicDaemon_reset_discards_pre_notify (t : PTask) (fuel : Nat) (ev0 : DaemonEvent)
    (hs : t.setup = CallRes.ok ()) (hf : t.is_finished 0 = CallRes.ok false)
    (hfuel : 0 < fuel) :
    ((BaseDaemon.notify ev0).reset).flag = false
    ∧ (PeriodicDaemon.run t fuel (BaseDaemon.notify ev0)).periodic_calls.head? = some true := by
  exact ⟨rfl,
    (PeriodicDaemon.run_first_call_scheduled t fuel (BaseDaemon.notify ev0) hs hf hfuel).1⟩

/-- Witness for C10 at a concrete task and pre-notified event. -/
theorem periodicDaemon_reset_discards_pre_notify_witness :
    (({ setup := CallRes.ok (), is_finished := fun _ => CallRes.ok false,
        periodic_task := fun _ => CallRes.ok (), teardown := CallRes.ok () } : PTask).setup
          = CallRes.ok ()
    ∧ (PeriodicDaemon.run
        { setup := CallRes.ok (), is_finished := fun _ => CallRes.ok false,
          periodic_task := fun _ => CallRes.ok (), teardown := CallRes.ok () }
        3 (BaseDaemon.notify DaemonEvent.init)).periodic_calls.head? = some true) := by
  refine ⟨rfl, ?_⟩
  exact (periodicDaemon_reset_discards_pre_notify
    { setup := CallRes.ok (), is_finished := fun _ => CallRes.ok false,
      periodic_task := fun _ => CallRes.ok (), teardown := CallRes.ok () }
    3 DaemonEvent.init rfl rfl (by decide)).2

/-- Outcome of an `os.kill(pid, sig)` probe on a given PID, as distinguished
by process.py: success, ESRCH (no such process), EPERM (exists, access
denied), or any other OSError. -/
inductive KOut where
  | ok
  | esrch
  | eperm
  | othererr
deriving DecidableEq, Repr

/-- World state for the file bookkeeping backend (rdaemon/file.py):
the existing directories, the pid files (path and text content), and an
oracle giving the `os.kill` probe outcome for every PID. -/
structure World where
  dirs : List String
  files : List (String × String)
  oskill : Int → KOut

/-- Reading a file: its content when present. -/
def lookupFile (w : World) (p : String) : Option String :=
  (w.files.find? (fun e => e.1 == p)).map (fun e => e.2)

/-- Value of a list of decimal digits. -/
def digitsToNat (l : List Char) : Nat :=
  l.foldl (fun a c => a * 10 + (c.toNat - 48)) 0

/-- Model of Python `int(s)` on file content: optional surrounding
whitespace, an optional sign, then a nonempty digit run; anything else
raises, modelled as `none`. -/
def parsePyInt (s : String) : Option Int :=
  match ((s.toList.dropWhile Char.isWhitespace).reverse.dropWhile Char.isWhitespace).reverse with
  | [] => none
  | c :: rest =>
    if c = '-' then
      if rest ≠ [] ∧ rest.all Char.isDigit then some (-(digitsToNat rest : Int)) else none
    else if c = '+' then
      if rest ≠ [] ∧ rest.all Char.isDigit then some ((digitsToNat rest : Int)) else none
    else
      if (c :: rest).all Char.isDigit then some ((digitsToNat (c :: rest) : Int)) else none

/-- Python exceptions that escape the modelled functions: `ValueError` with
its message, or an `OSError`. -/
inductive PyErr where
  | valueErr (msg : String)
  | osErr
deriving DecidableEq, Repr

/-- `get_daemon_pid` (file.py lines 67-81): read the pid file and parse it as
an integer; any failure (missing file, unreadable, unparsable content) is
caught by the bare `except` and re-raised as the NotActive `ValueError`. -/
def get_daemon_pid (w : World) (pid_file : String) : Except PyErr Int :=
  match lookupFile w pid_file with
  | none =>
    Except.error (PyErr.valueErr ("The daemon is not active. No pid file named: " ++ pid_file))
  | some content =>
    match parsePyInt content with
    | some n => Except.ok n
    | none =>
      Except.error (PyErr.valueErr ("The daemon is not active. No pid file named: " ++ pid_file))

/-- `__delpid` (file.py lines 195-204): remove the pid file; a failing
`os.remove` is caught and only reported, so the call never raises. -/
def delpid (w : World) (pid_file : String) : World :=
  { w with files := w.files.filter (fun e => e.1 != pid_file) }

/-- `kill_process` (process.py lines 49-61): `os.kill(pid, sig)` with every
`OSError` caught; true exactly when the signal was delivered. -/
def kill_process (w : World) (pid : Int) : Bool :=
  match w.oskill pid with
  | KOut.ok => true
  | _ => false

/-- `pid_exists` (process.py lines 91-120): raises `ValueError` for a
negative or zero PID; otherwise probes with `os.kill(pid, 0)`, mapping
ESRCH to false, EPERM to true, and re-raising any other OSError. -/
def pid_exists (w : World) (pid : Int) : Except PyErr Bool :=
  if pid < 0 then Except.error (PyErr.valueErr "invalid PID: must be positive integer")
  else if pid = 0 then Except.error (PyErr.valueErr "invalid PID 0")
  else
    match w.oskill pid with
    | KOut.ok => Except.ok true
    | KOut.esrch => Except.ok false
    | KOut.eperm => Except.ok true
    | KOut.othererr => Except.error PyErr.osErr

/-- `kill_daemon` (file.py lines 84-98): fetch the PID from the file — with
no guard, so the NotActive `ValueError` propagates — then signal it, and on
a successful SIGKILL delete the pid file.  The boolean argument `sigkill`
models the `sig == signal.SIGKILL` comparison; the result carries the
success flag, the new world, and the PIDs to which a signal was sent. -/
def kill_daemon (w : World) (pid_file : String) (sigkill : Bool) :
    Except PyErr (Bool × World × List Int) :=
  match get_daemon_pid w pid_file with
  | Except.error e => Except.error e
  | Except.ok pid =>
    if kill_process w pid && sigkill then
      Except.ok (kill_process w pid, delpid w pid_file, [pid])
    else
      Except.ok (kill_process w pid, w, [pid])

/-- `is_daemon_running` (file.py lines 101-118): `get_daemon_pid` under a
guard (failure means not running), then `pid_exists` with NO guard — its
`ValueError`/`OSError` propagates — deleting the stale pid file when the
process is gone. -/
def is_daemon_running (w : World) (pid_file : String) : Except PyErr (Bool × World) :=
  match get_daemon_pid w pid_file with
  | Except.error _ => Except.ok (false, w)
  | Except.ok pid =>
    match pid_exists w pid with
    | Except.error e => Except.error e
    | Except.ok b =>
      if b then Except.ok (true, w) else Except.ok (false, delpid w pid_file)

/-- Model of `os.path.join` for the path components used by the backends
(either empty or free of leading separators); joining an empty component is
normalized to the other component, since paths are opaque keys here. -/
def joinPath (a b : String) : String :=
  if b = "" then a else if a = "" then b else a ++ "/" ++ b

/-- `default_daemon_pid_file` (file.py lines 35-42):
`/tmp/rdaemons/<sub_path>/<daemon_name>.pid`. -/
def default_daemon_pid_file (daemon_name sub_path : String) : String :=
  joinPath (joinPath "/tmp/rdaemons" sub_path) (daemon_name ++ ".pid")

/-- Whether `p` is directly inside `folder`, and if so its entry name. -/
def isDirectChild (folder p : String) : Option String :=
  if p.startsWith (folder ++ "/") then
    let rest := p.drop (folder ++ "/").length
    if rest = "" then none
    else if rest.toList.contains '/' then none
    else some rest
  else none

/-- `os.listdir(folder)`: raises when the folder does not exist, else lists
the names of the files and directories directly inside it. -/
def listdir (w : World) (folder : String) : Except PyErr (List String) :=
  if w.dirs.contains folder then
    Except.ok ((w.files.map Prod.fst ++ w.dirs).filterMap (fun p => isDirectChild folder p))
  else Except.error PyErr.osErr

/-- `os.path.isfile`. -/
def isfile (w : World) (p : String) : Bool :=
  (lookupFile w p).isSome

/-- `kill_all_daemons` (file.py lines 121-140): list the folder — a listing
failure (absent folder) is caught and the call just returns — then for each
entry that is a file, `kill_daemon` under a guard that swallows its errors.
The result is the final world and all PIDs to which a signal was sent. -/
def kill_all_daemons (w : World) (sub_path pid_path : String) (sigkill : Bool) :
    World × List Int :=
  match listdir w (joinPath pid_path sub_path) with
  | Except.error _ => (w, [])
  | Except.ok names =>
    names.foldl
      (fun st name =>
        if isfile st.1 (joinPath (joinPath pid_path sub_path) name) then
          match kill_daemon st.1 (joinPath (joinPath pid_path sub_path) name) sigkill with
          | Except.ok (_, w1, sigs) => (w1, st.2 ++ sigs)
          | Except.error _ => st
        else st)
      (w, [])

/-- World state for the cgroup bookkeeping backend
(rdaemon/bookkeeping/cgroups.py): the existing cgroup paths, the direct
member PIDs of each group, and the thread-group-leader resolution oracle for
`/proc/<pid>/status` (`none` models an unreadable status file, whose
exception propagates out of `kill_multiple_process`). -/
structure CgWorld where
  groups : List String
  procs : String → List Int
  tgid : Int → Option Int

/-- Whether group `p` lies in the subtree rooted at `root`. -/
def underGroup (root p : String) : Bool :=
  p == root || p.startsWith (root ++ "/")

/-- Recursive deletion of a cgroup subtree. -/
def cgDelete (w : CgWorld) (root : String) : CgWorld :=
  { w with groups := w.groups.filter (fun g => !(underGroup root g)) }

/-- All member PIDs in the subtree of `root` (pycgroups
`Cgroup.hierarchy_procs`, as used by `kill_all_daemons`). -/
def hierarchyProcs (w : CgWorld) (root : String) : List Int :=
  (w.groups.filter (fun g => underGroup root g)).foldl (fun acc g => acc ++ w.procs g) []

/-- First pass of `kill_multiple_process` (process.py lines 64-88): resolve
each PID to its thread-group id by reading `/proc/<pid>/status`; a missing
or unreadable status file raises, and the exception propagates. -/
def resolveTgids (w : CgWorld) (pids : List Int) : Except PyErr (List Int) :=
  match pids with
  | [] => Except.ok []
  | p :: rest =>
    match w.tgid p with
    | none => Except.error PyErr.osErr
    | some t =>
      match resolveTgids w rest with
      | Except.error e => Except.error e
      | Except.ok l => Except.ok (t :: l)

/-- `kill_multiple_process` (process.py lines 64-88): signal each distinct
thread-group leader once (the set dedup modelled by `eraseDups`); the
individual `kill_process` outcomes are ignored.  Returns the leaders to
which a signal was sent. -/
def kill_multiple_process (w : CgWorld) (pids : List Int) : Except PyErr (List Int) :=
  match resolveTgids w pids with
  | Except.error e => Except.error e
  | Except.ok l => Except.ok l.eraseDups

/-- `get_daemon_pid` (cgroups.py lines 85-99): the pycgroups `Cgroup`
constructor with `create=False` raises when the group does not exist — the
repository relies on exactly this in `daemon_cgroup` (lines 74-78), which
converts the failure into the NotActive `ValueError`.  An existing group
with no member raises NotActive too, after deleting the empty group; the
error therefore carries the world in which it is raised. -/
def cg_get_daemon_pid (w : CgWorld) (path : String) :
    Except (PyErr × CgWorld) (List Int × CgWorld) :=
  if w.groups.contains path then
    if w.procs path = [] then
      Except.error
        (PyErr.valueErr ("The daemon is not active. Cgroup path have no tasks: " ++ path),
          cgDelete w path)
    else Except.ok (w.procs path, w)
  else
    Except.error (PyErr.valueErr ("The daemon is not active. No cgroup: " ++ path), w)

/-- `kill_daemon` (cgroups.py lines 102-121): a failing PID lookup is caught
and the function returns Python `None` (modelled `none`) — not a boolean;
otherwise signal all members, delete the group on SIGKILL, and return
`True`.  The middle component lists the PIDs to which a signal was sent. -/
def cg_kill_daemon (w : CgWorld) (path : String) (sigkill : Bool) :
    Except (PyErr × CgWorld) (Option Bool × List Int × CgWorld) :=
  match cg_get_daemon_pid w path with
  | Except.error (_, w1) => Except.ok (none, [], w1)
  | Except.ok (pids, w1) =>
    match kill_multiple_process w1 pids with
    | Except.error e => Except.error (e, w1)
    | Except.ok sigs =>
      if sigkill then Except.ok (some true, sigs, cgDelete w1 path)
      else Except.ok (some true, sigs, w1)

/-- `kill_all_daemons` (cgroups.py lines 140-156): the `Cgroup` constructor
on the root group is NOT guarded, so an absent root raises; otherwise all
subtree members are signalled and on SIGKILL the root is deleted
recursively. -/
def cg_kill_all_daemons (w : CgWorld) (sub_path cgroup_path : String) (sigkill : Bool) :
    Except PyErr (CgWorld × List Int) :=
  if w.groups.contains (joinPath cgroup_path sub_path) then
    match kill_multiple_process w (hierarchyProcs w (joinPath cgroup_path sub_path)) with
    | Except.error e => Except.error e
    | Except.ok sigs =>
      if sigkill then Except.ok (cgDelete w (joinPath cgroup_path sub_path), sigs)
      else Except.ok (w, sigs)
  else Except.error PyErr.osErr

/-- Deleting a pid file makes a subsequent read of it fail. -/
theorem lookupFile_delpid (w : World) (pf : String) :
    lookupFile (delpid w pf) pf = none := by
  have hfind : ((delpid w pf).files.find? (fun e => e.1 == pf)) = none := by
    rw [List.find?_eq_none]
    intro x hx
    rcases List.mem_filter.mp hx with ⟨-, hne⟩
    simpa using hne
  simp [lookupFile, hfind]

/-- Claim C6 (amended): exception behavior of the backend operations.  The
file-backend `kill_daemon` raises the NotActive `ValueError` when the pid
file is missing (rather than returning a boolean), and returns a boolean
without raising whenever the record yields a PID; `is_daemon_running`
absorbs a failing lookup into `false`, returns a boolean for a positive
recorded PID (absent an unexpected `os.kill` error), but propagates a raw
`ValueError` when the recorded PID is zero or negative; and the
cgroup-backend `kill_daemon` returns Python `None` — not a boolean — when
the bookkeeping record is missing. -/
theorem backend_error_reporting (w : World) (cw : CgWorld) (pf cgp : String) (sk : Bool) :
    (lookupFile w pf = none →
      ∃ m, kill_daemon w pf sk = Except.error (PyErr.valueErr m))
    ∧ (∀ pid, get_daemon_pid w pf = Except.ok pid →
        ∃ b w1, kill_daemon w pf sk = Except.ok (b, w1, [pid]))
    ∧ (∀ e, get_daemon_pid w pf = Except.error e →
        is_daemon_running w pf = Except.ok (false, w))
    ∧ (∀ pid, get_daemon_pid w pf = Except.ok pid → pid ≤ 0 →
        ∃ m, is_daemon_running w pf = Except.error (PyErr.valueErr m))
    ∧ (∀ pid, get_daemon_pid w pf = Except.ok pid → 0 < pid →
        w.oskill pid ≠ KOut.othererr →
        ∃ b w1, is_daemon_running w pf = Except.ok (b, w1))
    ∧ (∀ e cw1, cg_get_daemon_pid cw cgp = Except.error (e, cw1) →
        cg_kill_daemon cw cgp sk = Except.ok (none, [], cw1)) := by
  refine ⟨?_, ?_, ?_, ?_, ?_, ?_⟩
  · intro h
    exact ⟨"The daemon is not active. No pid file named: " ++ pf,
      by simp [kill_daemon, get_daemon_pid, h]⟩
  · intro pid hget
    by_cases hk : kill_process w pid && sk
    · exact ⟨kill_process w pid, delpid w pf, by simp [kill_daemon, hget, hk]⟩
    · exact ⟨kill_process w pid, w, by simp [kill_daemon, hget, hk]⟩
  · intro e hget
    simp [is_daemon_running, hget]
  · intro pid hget hle
    rcases lt_or_eq_of_le hle with hlt | heq
    · exact ⟨"invalid PID: must be positive integer",
        by simp [is_daemon_running, hget, pid_exists, hlt]⟩
    · exact ⟨"invalid PID 0",
        by simp [is_daemon_running, hget, pid_exists, ← heq]⟩
  · intro pid hget hpos hkill
    have h0 : ¬ pid < 0 := by omega
    have h1 : ¬ pid = 0 := by omega
    rcases hk : w.oskill pid with _ | _ | _ | _
    · exact ⟨true, w, by simp [is_daemon_running, hget, pid_exists, h0, h1, hk]⟩
    · exact ⟨false, delpid w pf, by simp [is_daemon_running, hget, pid_exists, h0, h1, hk]⟩
    · exact ⟨true, w, by simp [is_daemon_running, hget, pid_exists, h0, h1, hk]⟩
    · exact absurd hk hkill
  · intro e cw1 hget
    simp [cg_kill_daemon, hget]

/-- World for the C6 witness: one registered daemon whose recorded process
is alive. -/
def liveWorld : World :=
  { dirs := ["/tmp/rdaemons"],
    files := [(default_daemon_pid_file "worker" "", "42\n")],
    oskill := fun _ => KOut.ok }

/-- Cgroup world for the C6 witness: no groups exist. -/
def noGroupsWorld : CgWorld :=
  { groups := [], procs := fun _ => [], tgid := fun _ => none }

/-- Witness for the amended C6 at concrete worlds and records. -/
theorem backend_error_reporting_witness :
    (get_daemon_pid liveWorld (default_daemon_pid_file "worker" "") = Except.ok 42
    ∧ (∃ b w1, kill_daemon liveWorld (default_daemon_pid_file "worker" "") false
        = Except.ok (b, w1, [42]))
    ∧ (∃ b w1, is_daemon_running liveWorld (default_daemon_pid_file "worker" "")
        = Except.ok (b, w1))
    ∧ lookupFile liveWorld "/tmp/rdaemons/ghost.pid" = none
    ∧ (∃ m, kill_daemon liveWorld "/tmp/rdaemons/ghost.pid" false
        = Except.error (PyErr.valueErr m))
    ∧ (∃ e cw1, cg_get_daemon_pid noGroupsWorld "rdaemons/worker" = Except.error (e, cw1))
    ∧ cg_kill_daemon noGroupsWorld "rdaemons/worker" false
        = Except.ok (none, [], noGroupsWorld)) := by
  refine ⟨by rfl, ?_, ?_, by decide, ?_, ?_, ?_⟩
  · exact (backend_error_reporting liveWorld noGroupsWorld
      (default_daemon_pid_file "worker" "") "rdaemons/worker" false).2.1 42 (by rfl)
  · exact (backend_error_reporting liveWorld noGroupsWorld
      (default_daemon_pid_file "worker" "") "rdaemons/worker" false).2.2.2.2.1 42
      (by rfl) (by decide) (by decide)
  · exact (backend_error_reporting liveWorld noGroupsWorld
      "/tmp/rdaemons/ghost.pid" "rdaemons/worker" false).1 (by decide)
  · exact ⟨PyErr.valueErr ("The daemon is not active. No cgroup: rdaemons/worker"),
      noGroupsWorld, rfl⟩
  · exact (backend_error_reporting liveWorld noGroupsWorld
      "/tmp/rdaemons/ghost.pid" "rdaemons/worker" false).2.2.2.2.2
      (PyErr.valueErr ("The daemon is not active. No cgroup: rdaemons/worker"))
      noGroupsWorld rfl

/-- Claim C6 counterexample: a pid file whose content is the out-of-range
PID `0` makes `is_daemon_running` propagate a raw `ValueError` from
`pid_exists`, instead of returning a boolean or a NotActive outcome. -/
theorem is_daemon_running_raises_on_pid_zero :
    is_daemon_running
      { dirs := ["/tmp/rdaemons"],
        files := [(default_daemon_pid_file "zombie" "", "0")],
        oskill := fun _ => KOut.ok }
      (default_daemon_pid_file "zombie" "")
      = Except.error (PyErr.valueErr "invalid PID 0") := by
  rfl

/-- Claim C7: when the pid file exists with a valid positive PID whose
process is gone (ESRCH), `is_daemon_running` reports false and deletes the
stale pid file, and a subsequent `get_daemon_pid` fails with the NotActive
`ValueError` — the self-healing behavior. -/
theorem is_daemon_running_self_heals (w : World) (pf : String) (pid : Int)
    (hget : get_daemon_pid w pf = Except.ok pid) (hpos : 0 < pid)
    (hdead : w.oskill pid = KOut.esrch) :
    is_daemon_running w pf = Except.ok (false, delpid w pf)
    ∧ get_daemon_pid (delpid w pf) pf
        = Except.error (PyErr.valueErr ("The daemon is not active. No pid file named: " ++ pf)) := by
  have h0 : ¬ pid < 0 := by omega
  have h1 : ¬ pid = 0 := by omega
  constructor
  · simp [is_daemon_running, hget, pid_exists, h0, h1, hdead]
  · simp [get_daemon_pid, lookupFile_delpid]

/-- World for the C7 witness: one registered daemon whose recorded process
is dead. -/
def staleWorld : World :=
  { dirs := ["/tmp/rdaemons"],
    files := [(default_daemon_pid_file "worker" "", "42\n")],
    oskill := fun _ => KOut.esrch }

/-- Witness for C7 at a concrete stale world. -/
theorem is_daemon_running_self_heals_witness :
    (get_daemon_pid staleWorld (default_daemon_pid_file "worker" "") = Except.ok 42
    ∧ staleWorld.oskill 42 = KOut.esrch
    ∧ is_daemon_running staleWorld (default_daemon_pid_file "worker" "")
        = Except.ok (false, delpid staleWorld (default_daemon_pid_file "worker" ""))) := by
  refine ⟨by rfl, rfl, ?_⟩
  exact (is_daemon_running_self_heals staleWorld (default_daemon_pid_file "worker" "") 42
    (by rfl) (by decide) rfl).1

/-- Claim C8 (amended): `kill_all` is a no-op that signals no process and
raises no error on an EMPTY bookkeeping root for both backends; on an ABSENT
root this holds for the file backend (the `os.listdir` failure is caught),
but the cgroup backend raises, because its root `Cgroup` constructor is not
guarded. -/
theorem kill_all_on_empty_root (w : World) (cw : CgWorld) (sub pidp cgp : String) (sk : Bool) :
    (w.dirs.contains (joinPath pidp sub) = false →
      kill_all_daemons w sub pidp sk = (w, []))
    ∧ (listdir w (joinPath pidp sub) = Except.ok [] →
      kill_all_daemons w sub pidp sk = (w, []))
    ∧ (cw.groups.contains (joinPath cgp sub) = true →
      hierarchyProcs cw (joinPath cgp sub) = [] →
      ∃ cw1, cg_kill_all_daemons cw sub cgp sk = Except.ok (cw1, []))
    ∧ (cw.groups.contains (joinPath cgp sub) = false →
      cg_kill_all_daemons cw sub cgp sk = Except.error PyErr.osErr) := by
  refine ⟨?_, ?_, ?_, ?_⟩
  · intro h
    have hm : joinPath pidp sub ∉ w.dirs := by simpa using h
    simp [kill_all_daemons, listdir, hm]
  · intro h
    simp [kill_all_daemons, h]
  · intro hmem hempty
    have hm : joinPath cgp sub ∈ cw.groups := by simpa using hmem
    have hkmp : kill_multiple_process cw (hierarchyProcs cw (joinPath cgp sub))
        = Except.ok [] := by
      rw [hempty]
      rfl
    rcases hsk : sk with _ | _
    · exact ⟨cw, by simp [cg_kill_all_daemons, hm, hkmp]⟩
    · exact ⟨cgDelete cw (joinPath cgp sub), by simp [cg_kill_all_daemons, hm, hkmp]⟩
  · intro h
    have hm : joinPath cgp sub ∉ cw.groups := by simpa using h
    simp [cg_kill_all_daemons, hm]

/-- World for the C8 witness: the bookkeeping root directory exists and is
empty, and the cgroup root group exists with no member. -/
def emptyRootWorld : World :=
  { dirs := ["/tmp/rdaemons"], files := [], oskill := fun _ => KOut.ok }

/-- Cgroup world for the C8 witness: the root group exists and is empty. -/
def emptyCgRoot : CgWorld :=
  { groups := ["rdaemons"], procs := fun _ => [], tgid := fun _ => none }

/-- Witness for the amended C8 at concrete worlds: absent file root, empty
file root, empty cgroup root, absent cgroup root. -/
theorem kill_all_on_empty_root_witness :
    (emptyRootWorld.dirs.contains (joinPath "/tmp/rdaemons" "missing") = false
    ∧ kill_all_daemons emptyRootWorld "missing" "/tmp/rdaemons" false = (emptyRootWorld, [])
    ∧ listdir emptyRootWorld (joinPath "/tmp/rdaemons" "") = Except.ok []
    ∧ kill_all_daemons emptyRootWorld "" "/tmp/rdaemons" false = (emptyRootWorld, [])
    ∧ emptyCgRoot.groups.contains (joinPath "rdaemons" "") = true
    ∧ hierarchyProcs emptyCgRoot (joinPath "rdaemons" "") = []
    ∧ (∃ cw1, cg_kill_all_daemons emptyCgRoot "" "rdaemons" false = Except.ok (cw1, []))
    ∧ emptyCgRoot.groups.contains (joinPath "rdaemons" "ghost") = false
    ∧ cg_kill_all_daemons emptyCgRoot "ghost" "rdaemons" false = Except.error PyErr.osErr) := by
  refine ⟨by decide, ?_, by rfl, ?_, by decide, by decide, ?_, by decide, ?_⟩
  · exact (kill_all_on_empty_root emptyRootWorld emptyCgRoot "missing" "/tmp/rdaemons"
      "rdaemons" false).1 (by decide)
  · exact (kill_all_on_empty_root emptyRootWorld emptyCgRoot "" "/tmp/rdaemons"
      "rdaemons" false).2.1 (by rfl)
  · exact (kill_all_on_empty_root emptyRootWorld emptyCgRoot "" "/tmp/rdaemons"
      "rdaemons" false).2.2.1 (by decide) (by decide)
  · exact (kill_all_on_empty_root emptyRootWorld emptyCgRoot "ghost" "/tmp/rdaemons"
      "rdaemons" false).2.2.2 (by decide)

/-- Claim C8 counterexample: on an absent cgroup bookkeeping root,
`kill_all_daemons` of the cgroup backend raises instead of being a no-op:
the root `Cgroup` constructor with `create=False` fails (the repository's
own `daemon_cgroup` wrapper documents that failure as "the daemon is not
active"), and nothing in `kill_all_daemons` catches it. -/
theorem cg_kill_all_raises_on_absent_root :
    cg_kill_all_daemons noGroupsWorld "system" "rdaemons" false
      = Except.error PyErr.osErr := by
  rfl
